import Mathlib

/-!
Shallow embedding of the talent extraction, risk-scoring and ranking pipeline
of the JobHunterChatbot repository.

The definitions mirror two source files:
  - src/talent_scraper_chatbot.py  (class TalentScraperChatbot)
  - src/LearningStuff-ignore/LearningTask.py  (standalone multi-agent script)

Python strings are modelled as Lean `String` or `List Char`; Python floats in
the risk/match formulas are modelled as `ℚ` (every constant involved is an
exact binary fraction except the 0.4 / 0.2 ranking weights, which are exact in
`ℚ`); Python ints as `ℤ` / `ℕ`; a fallible external search call as `Except`.
The regular-expression searches of the source are modelled by hand-written
matchers over `List Char` that implement `re.search` semantics (leftmost
match, greedy / non-greedy repetition and ordered alternation) for the five
concrete patterns appearing in the source.
-/

/-! ### Basic Python string primitives -/

/-- Python `\s` character class (ASCII whitespace, as used by `re` on the
ASCII inputs considered here): space, tab, newline, carriage return,
vertical tab, form feed. -/
def isPySpace (c : Char) : Bool :=
  c = ' ' || c = '\t' || c = '\n' || c = '\r' || c = '\x0b' || c = '\x0c'

/-- Python `str.lower` restricted to ASCII (all inputs in the source's fixed
tables and the claims are ASCII). -/
def pyLower (l : List Char) : List Char :=
  l.map Char.toLower

/-- Python `str.strip()` with no argument: remove leading and trailing
whitespace. -/
def pyStrip (l : List Char) : List Char :=
  ((l.dropWhile isPySpace).reverse.dropWhile isPySpace).reverse

/-- Python substring containment `needle in hay` on `List Char`. -/
def pyInL (needle : List Char) : List Char → Bool
  | [] => needle.isEmpty
  | h :: t => needle.isPrefixOf (h :: t) || pyInL needle t

/-- Python substring containment `needle in hay` on `String`. -/
def pyIn (needle hay : String) : Bool :=
  pyInL needle.data hay.data

/-- Python `s.startswith(pre)`. -/
def pyStartsWith (s pre : String) : Bool :=
  pre.data.isPrefixOf s.data

/-- Numeric value of a run of decimal digit characters
(Python `int(...)` applied to `group(1)` of a `(\d+)` capture). -/
def digitsToNat (l : List Char) : ℕ :=
  l.foldl (fun a c => 10 * a + (c.toNat - 48)) 0

/-- Python `int(...)` applied to a float: truncation toward zero. -/
def pyTruncInt (q : ℚ) : ℤ :=
  if 0 ≤ q then ⌊q⌋ else -⌊-q⌋

/-- Python 3 `round(...)` with no digits argument: round half to even. -/
def pyRound (q : ℚ) : ℤ :=
  let f := ⌊q⌋
  let frac := q - f
  if frac < 1 / 2 then f
  else if 1 / 2 < frac then f + 1
  else if f % 2 = 0 then f else f + 1

/-! ### The regular-expression matchers of the source

The source uses five `re.search` patterns (the same patterns in both files):

  name    : `^([A-Za-z\s]+?)(?:\s*[-–|]|\s*\d|\s*$)`    over the raw title
  exp     : `(\d+)\+?\s*years?\s*(?:of\s*)?(?:experience|exp)`  over lowered content
  rating  : `(\d+(?:\.\d+)?)\s*(?:stars?|rating|\/5)`   over lowered content
  rate    : `\$(\d+)(?:\.\d+)?\/(?:hour|hr)`            over lowered content
  quantity: `(\d+)`                                     over the raw request

Each matcher below returns the text of capture group 1 on success. -/

/-- Character class `[A-Za-z\s]` of the name pattern. -/
def isNameChar (c : Char) : Bool :=
  c.isAlpha || isPySpace c

/-- Tail of the name pattern: `(?:\s*[-–|]|\s*\d|\s*$)`.  All three
alternatives begin with `\s*`; after dropping whitespace the match succeeds on
a dash, en-dash, pipe or digit, or at the end of the string (a trailing
newline, if any, is consumed by `\s*`, so plain end-of-input is faithful). -/
def nameTail (t : List Char) : Bool :=
  match t.dropWhile isPySpace with
  | [] => true
  | c :: _ => c = '-' || c = '–' || c = '|' || c.isDigit

/-- Non-greedy extension loop for the group `([A-Za-z\s]+?)`: the shortest
nonempty prefix of name characters whose remainder matches `nameTail` wins.
`acc` holds the group read so far, in reverse. -/
def nameGo (acc : List Char) : List Char → Option (List Char)
  | [] => if nameTail [] then some acc.reverse else none
  | c :: t =>
    if nameTail (c :: t) then some acc.reverse
    else if isNameChar c then nameGo (c :: acc) t
    else none

/-- The anchored name pattern: group 1 on success.  The group needs at least
one character before the first tail test. -/
def nameMatch : List Char → Option (List Char)
  | [] => none
  | c :: t => if isNameChar c then nameGo [c] t else none

/-- `(?:experience|exp)` — ordered alternation; success is a prefix test. -/
def expWord (v : List Char) : Bool :=
  "experience".data.isPrefixOf v || "exp".data.isPrefixOf v

/-- `\s*(?:of\s*)?(?:experience|exp)` — the optional `of\s*` is tried greedily
first, then skipped. -/
def expAfterYears (t : List Char) : Bool :=
  match t.dropWhile isPySpace with
  | 'o' :: 'f' :: u => expWord (u.dropWhile isPySpace) || expWord ('o' :: 'f' :: u)
  | u => expWord u

/-- `s?\s*(?:of\s*)?(?:experience|exp)` after the literal `year` — the
optional `s` is tried greedily first, then skipped. -/
def expAfterYear (t : List Char) : Bool :=
  match t with
  | 's' :: t2 => expAfterYears t2 || expAfterYears ('s' :: t2)
  | _ => expAfterYears t

/-- `\+?\s*years?...` after the digit run.  A `+` that is present is always
consumed: skipping it would leave `+`, which can match neither `\s*` nor the
literal `y`, so that backtracking branch is dead. -/
def expTail (t : List Char) : Bool :=
  let t1 := match t with
    | '+' :: t2 => t2
    | _ => t
  match t1.dropWhile isPySpace with
  | 'y' :: 'e' :: 'a' :: 'r' :: u => expAfterYear u
  | _ => false

/-- `re.search` of the experience pattern: scan start positions left to
right; at a digit, `(\d+)` greedily captures the maximal digit run (a shorter
run would leave a digit where `\+?\s*y` is required, so greedy is exact). -/
def expSearch : List Char → Option (List Char)
  | [] => none
  | c :: t =>
    if c.isDigit then
      if expTail ((c :: t).dropWhile Char.isDigit) then
        some ((c :: t).takeWhile Char.isDigit)
      else expSearch t
    else expSearch t

/-- `\s*(?:stars?|rating|\/5)` — `stars?` succeeds exactly on the prefix
`star` since nothing follows the optional `s`. -/
def ratingTail (t : List Char) : Bool :=
  let u := t.dropWhile isPySpace
  "star".data.isPrefixOf u || "rating".data.isPrefixOf u || "/5".data.isPrefixOf u

/-- `re.search` of the rating pattern `(\d+(?:\.\d+)?)\s*(?:stars?|rating|\/5)`:
at each digit run the greedy optional decimal part is tried first, then the
branch without it. -/
def ratingSearch : List Char → Option (List Char)
  | [] => none
  | c :: t =>
    if c.isDigit then
      let ds := (c :: t).takeWhile Char.isDigit
      let rest := (c :: t).dropWhile Char.isDigit
      match rest with
      | '.' :: r2 =>
        if (r2.takeWhile Char.isDigit).isEmpty then
          if ratingTail rest then some ds else ratingSearch t
        else
          if ratingTail (r2.dropWhile Char.isDigit) then
            some (ds ++ '.' :: r2.takeWhile Char.isDigit)
          else if ratingTail rest then some ds
          else ratingSearch t
      | _ => if ratingTail rest then some ds else ratingSearch t
    else ratingSearch t

/-- `\/(?:hour|hr)` — ordered alternation, two independent prefix tests. -/
def rateTail (t : List Char) : Bool :=
  "/hour".data.isPrefixOf t || "/hr".data.isPrefixOf t

/-- `re.search` of the rate pattern `\$(\d+)(?:\.\d+)?\/(?:hour|hr)`; group 1
is the integer part only.  A present decimal part must be consumed: skipping
it leaves `.` where `\/` is required. -/
def rateSearch : List Char → Option (List Char)
  | [] => none
  | c :: t =>
    if c = '$' then
      let ds := t.takeWhile Char.isDigit
      if ds.isEmpty then rateSearch t
      else
        let rest := t.dropWhile Char.isDigit
        let rest2 := match rest with
          | '.' :: r2 =>
            if (r2.takeWhile Char.isDigit).isEmpty then rest
            else r2.dropWhile Char.isDigit
          | _ => rest
        if rateTail rest2 then some ds else rateSearch t
    else rateSearch t

/-- `re.search(r'(\d+)', text)`: the leftmost maximal digit run. -/
def firstIntRun : List Char → Option (List Char)
  | [] => none
  | c :: t =>
    if c.isDigit then some ((c :: t).takeWhile Char.isDigit)
    else firstIntRun t

/-! ### Data model (src/talent_scraper_chatbot.py) -/

/-- `class SeniorityLevel(str, Enum)`. -/
inductive SeniorityLevel where
  | JUNIOR
  | MID
  | SENIOR
  | LEAD
  | PRINCIPAL
deriving DecidableEq

/-- `@dataclass Talent` — a talent profile as built by the chatbot. -/
structure Talent where
  title : String
  purpose : String
  seniority : SeniorityLevel
  skill_keywords : List String
  profile_url : Option String := none
  experience_years : Option String := none
  rating : Option String := none
  hourly_rate : Option String := none
  risk_score : Option ℤ := none
  strengths : Option (List String) := none
  summary : Option String := none
deriving DecidableEq

/-- The structured requirement set produced by `_decompose_requirements`
(dict with keys skills / seniority / quantity / original_request). -/
structure Requirements where
  skills : List String
  seniority : SeniorityLevel
  quantity : ℕ
  original_request : String

/-- The dict built by `_extract_profile_data` (lines 467-556). -/
structure ProfileData where
  name : String
  skills : List String
  experience : String
  rating : String
  rate : String
  seniority : SeniorityLevel
  strengths : List String
  risk_score : ℤ
  role_description : String
deriving DecidableEq

/-! ### Requirement Extractor (quantity part, lines 344-351)

`_decompose_requirements` sets
`quantity = int(re.search(r'(\d+)', user_input).group(1)) if matched else 5`
and stores `min(quantity, 10)`. -/

/-- The `quantity` field produced by `_decompose_requirements`. -/
def decompose_quantity (user_input : String) : ℕ :=
  min
    (match firstIntRun user_input.data with
      | some ds => digitsToNat ds
      | none => 5)
    10

/-! ### Risk Scorer, chatbot variant (lines 529-541 of
`_extract_profile_data`).  The sequence of `-=` / `+=` updates is mirrored by
shadowing `let`s. -/

/-- Pre-clamp risk value of the chatbot variant. -/
def chatbotRiskRaw (found_skills : List String) (url rating experience : String) : ℚ :=
  let risk : ℚ := 3
  let risk := if 5 ≤ found_skills.length then risk - 1 else risk
  let risk := if pyIn "upwork.com" url || pyIn "linkedin.com" url then risk - 1 / 2 else risk
  let risk := if rating ≠ "Not specified" then risk - 1 / 2 else risk
  let risk := if pyIn "Not specified" experience then risk + 1 else risk
  risk

/-- `profile_data['risk_score'] = max(1, min(5, int(risk_score)))`. -/
def chatbotRiskScore (found_skills : List String) (url rating experience : String) : ℤ :=
  max 1 (min 5 (pyTruncInt (chatbotRiskRaw found_skills url rating experience)))

/-- Strength tags of the chatbot variant (lines 543-554). -/
def chatbotStrengths (found_skills : List String) (url : String) : List String :=
  (if 5 ≤ found_skills.length then ["Diverse skill set"] else []) ++
  (if "Full Stack" ∈ found_skills ∨ ("Frontend" ∈ found_skills ∧ "Backend" ∈ found_skills) then
    ["Full-stack capabilities"] else []) ++
  (if "AI" ∈ found_skills ∨ "Machine Learning" ∈ found_skills then ["AI/ML expertise"] else []) ++
  (if pyIn "upwork.com" url then ["Upwork verified"] else [])

/-! ### Profile Extractor, chatbot variant (lines 467-556) -/

/-- The fixed skill vocabulary `skill_patterns` (lines 488-492). -/
def skill_patterns : List String :=
  ["React", "Node.js", "Python", "JavaScript", "MongoDB", "Express",
   "AI", "Machine Learning", "DevOps", "AWS", "Docker", "TypeScript",
   "Full Stack", "Frontend", "Backend", "Mobile", "Flutter"]

/-- `_extract_profile_data(title, content, url)`. -/
def extract_profile_data (title content url : String) : ProfileData :=
  let name := match nameMatch title.data with
    | some g => String.mk (pyStrip g)
    | none => "Unknown"
  let text_to_search := pyLower (title ++ " " ++ content).data
  let found_skills := skill_patterns.filter fun sk => pyInL (pyLower sk.data) text_to_search
  let contentLower := pyLower content.data
  let expSen : String × SeniorityLevel := match expSearch contentLower with
    | some ds =>
      let years := digitsToNat ds
      (toString years ++ " years",
        if years < 2 then SeniorityLevel.JUNIOR
        else if years < 5 then SeniorityLevel.MID
        else if years < 8 then SeniorityLevel.SENIOR
        else SeniorityLevel.LEAD)
    | none => ("Not specified", SeniorityLevel.MID)
  let rating := match ratingSearch contentLower with
    | some g => String.mk g ++ "/5"
    | none => "Not specified"
  let rate := match rateSearch contentLower with
    | some ds => "$" ++ String.mk ds ++ "/hour"
    | none => "Not specified"
  { name := name
    skills := found_skills
    experience := expSen.1
    rating := rating
    rate := rate
    seniority := expSen.2
    strengths := chatbotStrengths found_skills url
    risk_score := chatbotRiskScore found_skills url rating expSen.1
    role_description := "Software development professional" }

/-! ### Ranker, chatbot variant (`_rank_and_filter_talent`, lines 558-586) -/

/-- `str.lower` on a whole `String`. -/
def pyLowerStr (s : String) : String :=
  String.mk (pyLower s.data)

/-- The transient `match_score` assigned to each talent (lines 564-577):
`(risk_score or 3)*0.4 + max(0, 5 - skill_match)*0.4 + max(0, 5 - total_skills/2)*0.2`
where `skill_match` is the size of the intersection of the lower-cased
requirement skills and lower-cased talent skills, and `risk_score or 3`
replaces both `None` and `0` by 3 (Python `or` on a falsy value). -/
def matchScore (req : Requirements) (t : Talent) : ℚ :=
  let required_skills := (req.skills.map pyLowerStr).toFinset
  let talent_skills := (t.skill_keywords.map pyLowerStr).toFinset
  let skill_match := (required_skills ∩ talent_skills).card
  let total_skills := t.skill_keywords.length
  (match t.risk_score with
    | none => (3 : ℚ)
    | some r => if r = 0 then 3 else r) * (4 / 10)
    + max 0 ((5 : ℚ) - skill_match) * (4 / 10)
    + max 0 ((5 : ℚ) - (total_skills : ℚ) / 2) * (2 / 10)

instance decKeyLe {α : Type} (key : α → ℚ) : DecidableRel fun a b => key a ≤ key b :=
  fun a b => inferInstanceAs (Decidable (key a ≤ key b))

/-- `sorted(talent_profiles, key=lambda x: x.match_score)` — Python's `sorted`
is the (unique) stable sort by the key, modelled by insertion sort on the
key's `≤`. -/
def sortTalent (req : Requirements) (profiles : List Talent) : List Talent :=
  List.insertionSort (fun a b => matchScore req a ≤ matchScore req b) profiles

/-- The same stable sort on index-tagged talents; the tag plays the role of a
Python object's position in the input list and is ignored by the key. -/
def sortTalentTagged (req : Requirements) (l : List (ℕ × Talent)) : List (ℕ × Talent) :=
  List.insertionSort (fun a b => matchScore req a.2 ≤ matchScore req b.2) l

/-- `_rank_and_filter_talent(talent_profiles, requirements)`:
stable sort ascending by match score, truncate to `requirements['quantity']`. -/
def rank_and_filter_talent (talent_profiles : List Talent) (requirements : Requirements) :
    List Talent :=
  (sortTalent requirements talent_profiles).take requirements.quantity

/-! ### Search Executor (`_execute_searches`, lines 390-425) -/

/-- One record of the external search provider's `results` list. -/
structure RawResult where
  title : String
  url : String
  content : String
deriving DecidableEq

/-- A result record after the executor stores `search_query` and
`search_index` into it (lines 411-413). -/
structure TaggedResult where
  title : String
  url : String
  content : String
  search_query : String
  search_index : ℕ
deriving DecidableEq

/-- `result['search_query'] = query; result['search_index'] = i`. -/
def tagResult (r : RawResult) (query : String) (i : ℕ) : TaggedResult :=
  { title := r.title, url := r.url, content := r.content
    search_query := query, search_index := i }

/-- The loop of `_execute_searches` over `enumerate(search_queries, 1)`:
a provider failure on a query is caught and that query contributes nothing;
a success appends its tagged results to the running aggregate. -/
def execute_searches_go (tavily : String → Except String (List RawResult)) :
    ℕ → List String → List TaggedResult
  | _, [] => []
  | i, query :: rest =>
    match tavily query with
    | Except.error _ => execute_searches_go tavily (i + 1) rest
    | Except.ok results =>
      results.map (fun r => tagResult r query i) ++ execute_searches_go tavily (i + 1) rest

/-- `_execute_searches(search_queries)`, with the external `tavily_client.search`
call abstracted as a fallible function. -/
def execute_searches (tavily : String → Except String (List RawResult))
    (search_queries : List String) : List TaggedResult :=
  execute_searches_go tavily 1 search_queries

/-! ### Standalone variant (src/LearningStuff-ignore/LearningTask.py) -/

/-- The dict built by `extract_developer_info` (lines 205-261). -/
structure DevProfile where
  name : String
  skills : List String
  experience : String
  rating : String
  rate : String
  risk_factors : List String
  strengths : List String
deriving DecidableEq

/-- `mern_skills` (line 225). -/
def mern_skills : List String :=
  ["MongoDB", "Express", "React", "Node", "JavaScript", "Full Stack"]

/-- `ai_skills` (line 226). -/
def ai_skills : List String :=
  ["AI", "Machine Learning", "Deep Learning", "TensorFlow", "PyTorch", "NLP"]

/-- `extract_developer_info(title, content, url)`. -/
def extract_developer_info (title content url : String) : DevProfile :=
  let name := match nameMatch title.data with
    | some g => String.mk (pyStrip g)
    | none => "Unknown"
  let text_to_search := pyLower (title ++ " " ++ content).data
  let found_skills := (mern_skills ++ ai_skills).filter fun sk =>
    pyInL (pyLower sk.data) text_to_search
  let contentLower := pyLower content.data
  let experience := match expSearch contentLower with
    | some ds => String.mk ds ++ " years"
    | none => "Unknown"
  let rating := match ratingSearch contentLower with
    | some g => String.mk g ++ "/5"
    | none => "Not specified"
  let rate := match rateSearch contentLower with
    | some ds => "$" ++ String.mk ds ++ "/hour"
    | none => "Not specified"
  let strengths :=
    (if 6 ≤ found_skills.length then ["Strong technical skill set"] else []) ++
    (if pyInL "react".data text_to_search && pyInL "node".data text_to_search then
      ["Full MERN stack experience"] else []) ++
    (if ["ai", "machine learning", "deep learning"].any
        (fun s => pyInL s.data text_to_search) then ["AI/ML expertise"] else []) ++
    (if pyIn "upwork.com" url then ["Upwork verified profile"] else [])
  { name := name, skills := found_skills, experience := experience, rating := rating
    rate := rate, risk_factors := [], strengths := strengths }

/-- The condition `profile.get("rating", "").startswith(("4", "5"))`
(line 274). -/
def standaloneHighRating (rating : String) : Bool :=
  pyStartsWith rating "4" || pyStartsWith rating "5"

/-- Pre-clamp risk value of `calculate_risk_score` (lines 263-287); the
sequence of `-=` / `+=` updates is mirrored by shadowing `let`s.  The
`"experience" in profile` key test of line 277 is always true for the
profiles of this model (the field exists), as it is for every dict built by
`extract_developer_info`. -/
def calculateRiskRaw (profile : DevProfile) : ℚ :=
  let risk : ℚ := 3
  let risk := if 6 ≤ profile.skills.length then risk - 1 else risk
  let risk := if "AI" ∈ profile.skills ∨ "Machine Learning" ∈ profile.skills then
    risk - 1 else risk
  let risk := if standaloneHighRating profile.rating then risk - 1 / 2 else risk
  let risk := if ["3", "4", "5", "6", "7", "8", "9"].any
      (fun num => pyIn num profile.experience) then risk - 1 / 2 else risk
  let risk := if profile.skills.length < 3 then risk + 1 else risk
  let risk := if profile.experience = "Unknown" ∨ profile.rating = "Unknown" then
    risk + 1 / 2 else risk
  risk

/-- `calculate_risk_score(profile, content)` — the `content` argument is
unused in the source body; `risk_score = max(1, min(5, int(round(risk_score))))`. -/
def calculate_risk_score (profile : DevProfile) (content : String) : ℤ :=
  let _ := content
  max 1 (min 5 (pyRound (calculateRiskRaw profile)))

/-- `get_risk_level(score)` (lines 292-301). -/
def get_risk_level (score : ℤ) : String :=
  if score = 1 then "Very Low Risk"
  else if score = 2 then "Low Risk"
  else if score = 3 then "Medium Risk"
  else if score = 4 then "High Risk"
  else if score = 5 then "Very High Risk"
  else "Unknown Risk"

/-- The structured profile dict built per result inside
`risk_assessment_agent` (lines 171-185). -/
structure StructuredProfile where
  id : ℕ
  name : String
  profile_url : String
  title : String
  skills : List String
  experience_years : String
  rating : String
  hourly_rate : String
  risk_score : ℤ
  risk_level : String
  risk_factors : List String
  strengths : List String
  summary : String
deriving DecidableEq

/-- `content[:200] + "..." if len(content) > 200 else content`. -/
def summarize (content : String) : String :=
  if 200 < content.data.length then String.mk (content.data.take 200) ++ "..." else content

/-- The body of the per-result loop of `risk_assessment_agent` (lines
156-187) for the `i`-th result (1-based). -/
def evaluateResult (i : ℕ) (r : RawResult) : StructuredProfile :=
  let dp := extract_developer_info r.title r.content r.url
  let rs := calculate_risk_score dp r.content
  { id := i, name := dp.name, profile_url := r.url, title := r.title
    skills := dp.skills, experience_years := dp.experience, rating := dp.rating
    hourly_rate := dp.rate, risk_score := rs, risk_level := get_risk_level rs
    risk_factors := dp.risk_factors, strengths := dp.strengths
    summary := summarize r.content }

/-- `risk_assessment_agent`, restricted to its data transformation: empty
input short-circuits to `[]` (lines 146-150); otherwise the loop runs over
`enumerate(search_results[:5], 1)` (line 156). -/
def risk_assessment_agent (search_results : List RawResult) : List StructuredProfile :=
  if search_results.isEmpty then []
  else (List.enumFrom 1 (search_results.take 5)).map fun p => evaluateResult p.1 p.2

/-- The sort key order of `final_recommendation_agent` (line 324): ascending
lexicographic on the tuple `(risk_score, -len(skills))`. -/
def recLe (a b : StructuredProfile) : Prop :=
  a.risk_score < b.risk_score ∨
    (a.risk_score = b.risk_score ∧ -(a.skills.length : ℤ) ≤ -(b.skills.length : ℤ))

instance : DecidableRel recLe := fun a b =>
  inferInstanceAs (Decidable (a.risk_score < b.risk_score ∨
    (a.risk_score = b.risk_score ∧ -(a.skills.length : ℤ) ≤ -(b.skills.length : ℤ))))

/-- `final_recommendation_agent`, restricted to its data transformation:
empty input short-circuits to `[]` (lines 314-318); otherwise stable sort by
`(risk_score, -len(skills))` and keep the first 5 (lines 322-328). -/
def final_recommendation_agent (evaluated_developers : List StructuredProfile) :
    List StructuredProfile :=
  if evaluated_developers.isEmpty then []
  else (List.insertionSort recLe evaluated_developers).take 5

/-! ### Helper lemmas -/

theorem clamp_one_five_mem (z : ℤ) : 1 ≤ max 1 (min 5 z) ∧ max 1 (min 5 z) ≤ 5 := by
  omega

theorem execute_searches_go_eq (tavily : String → Except String (List RawResult))
    (i : ℕ) (qs : List String) :
    execute_searches_go tavily i qs =
      ((List.enumFrom i qs).map fun p =>
        match tavily p.2 with
        | Except.error _ => []
        | Except.ok results => results.map fun r => tagResult r p.2 p.1).flatten := by
  induction qs generalizing i with
  | nil => simp [execute_searches_go]
  | cons q rest ih =>
    simp only [execute_searches_go, List.enumFrom, List.map_cons, List.flatten_cons]
    cases h : tavily q with
    | error e => simp [h, ih]
    | ok results => simp [h, ih]

/-! ### Claim theorems -/

/-- Claim C1: for every input profile and raw content (including all-defaults
and all-positive profiles), both Risk Scorer variants — the risk computation
of `_extract_profile_data` and the standalone `calculate_risk_score` — return
an integer in the inclusive range [1, 5]. -/
theorem risk_score_always_in_range :
    (∀ (found_skills : List String) (url rating experience : String),
      1 ≤ chatbotRiskScore found_skills url rating experience ∧
        chatbotRiskScore found_skills url rating experience ≤ 5) ∧
    (∀ (profile : DevProfile) (content : String),
      1 ≤ calculate_risk_score profile content ∧
        calculate_risk_score profile content ≤ 5) := by
  constructor
  · intro found_skills url rating experience
    exact clamp_one_five_mem _
  · intro profile content
    exact clamp_one_five_mem _

/-- Claim C3: the chatbot Ranker `_rank_and_filter_talent` returns a list
whose length is `min (input length) quantity`; an empty profile list yields
an empty output (the function is total, so no exception can arise). -/
theorem ranker_length_and_empty :
    (∀ (talent_profiles : List Talent) (requirements : Requirements),
      (rank_and_filter_talent talent_profiles requirements).length =
        min talent_profiles.length requirements.quantity) ∧
    (∀ requirements : Requirements, rank_and_filter_talent [] requirements = []) := by
  constructor
  · intro talent_profiles requirements
    unfold rank_and_filter_talent sortTalent
    rw [List.length_take, List.length_insertionSort]
    omega
  · intro requirements
    unfold rank_and_filter_talent sortTalent
    simp

/-- Claim C9: for every ordered list of queries and any behaviour of the
search provider, `_execute_searches` returns exactly the concatenation, in
query order, of the tagged results of the succeeding queries (a failing query
contributes zero results); when every query fails the result is empty.  The
executor is a total function, so no exception propagates. -/
theorem executor_concatenates_successes :
    ∀ (tavily : String → Except String (List RawResult)) (search_queries : List String)
      (e : String),
      execute_searches tavily search_queries =
        ((List.enumFrom 1 search_queries).map fun p =>
          match tavily p.2 with
          | Except.error _ => []
          | Except.ok results => results.map fun r => tagResult r p.2 p.1).flatten ∧
      execute_searches (fun _ => Except.error e) search_queries = [] := by
  intro tavily search_queries e
  constructor
  · exact execute_searches_go_eq tavily 1 search_queries
  · rw [execute_searches, execute_searches_go_eq]
    rw [List.flatten_eq_nil_iff]
    intro xs hxs
    rcases List.mem_map.mp hxs with ⟨p, _, hp⟩
    exact hp.symm

/-- Claim C10: in the standalone variant, `risk_assessment_agent` evaluates
only the first 5 search results — its output is unchanged when the input is
truncated to 5 — and `final_recommendation_agent` returns at most 5
recommendations, whatever its input. -/
theorem standalone_first_five :
    (∀ search_results : List RawResult,
      risk_assessment_agent search_results =
        risk_assessment_agent (search_results.take 5)) ∧
    (∀ evaluated_developers : List StructuredProfile,
      (final_recommendation_agent evaluated_developers).length ≤ 5) := by
  constructor
  · intro rs
    unfold risk_assessment_agent
    rw [List.take_take]
    norm_num
  · intro ds
    unfold final_recommendation_agent
    split
    · simp
    · rw [List.length_take]
      omega

theorem dropWhile_take_one_not {α : Type} (p : α → Bool) (l : List α) :
    ∀ c ∈ (l.dropWhile p).take 1, p c = false := by
  induction l with
  | nil => simp
  | cons a t ih =>
    rw [List.dropWhile_cons]
    split
    · exact ih
    · intro c hc
      simp only [List.take, List.mem_singleton] at hc
      subst hc
      simp_all

theorem firstIntRun_eq_none_iff (l : List Char) :
    firstIntRun l = none ↔ ∀ c ∈ l, c.isDigit = false := by
  induction l with
  | nil => simp [firstIntRun]
  | cons c t ih =>
    rw [firstIntRun]
    by_cases hc : c.isDigit
    · simp [hc]
    · simp only [hc, if_neg, Bool.false_eq_true, not_false_eq_true, List.mem_cons]
      rw [ih]
      constructor
      · intro h x hx
        rcases hx with rfl | hx
        · simpa using hc
        · exact h x hx
      · intro h x hx
        exact h x (Or.inr hx)

theorem firstIntRun_eq_some_spec (l ds : List Char) (h : firstIntRun l = some ds) :
    ∃ pre post, l = pre ++ (ds ++ post) ∧ (∀ c ∈ pre, c.isDigit = false) ∧
      ds ≠ [] ∧ (∀ c ∈ ds, c.isDigit = true) ∧ ∀ c ∈ post.take 1, c.isDigit = false := by
  induction l with
  | nil => simp [firstIntRun] at h
  | cons c t ih =>
    rw [firstIntRun] at h
    by_cases hc : c.isDigit
    · rw [if_pos hc, Option.some_inj] at h
      refine ⟨[], (c :: t).dropWhile Char.isDigit, ?_, by simp, ?_, ?_, ?_⟩
      · rw [List.nil_append, ← h, List.takeWhile_append_dropWhile]
      · rw [← h, List.takeWhile_cons, if_pos hc]
        simp
      · intro x hx
        rw [← h] at hx
        exact List.mem_takeWhile_imp hx
      · exact dropWhile_take_one_not Char.isDigit (c :: t)
    · rw [if_neg hc] at h
      obtain ⟨pre, post, heq, hpre, hne, hds, hpost⟩ := ih h
      refine ⟨c :: pre, post, by rw [List.cons_append, heq], ?_, hne, hds, hpost⟩
      intro x hx
      rcases List.mem_cons.mp hx with rfl | hx
      · simpa using hc
      · exact hpre x hx

/-- Claim C2 (amended): `_decompose_requirements` takes the first integer
found anywhere in the text — the leftmost maximal digit run — as `quantity`,
defaulting to 5 when the text has no digit, and clamps only the upper bound:
the stored value is `min quantity 10`, hence at most 10 but possibly 0 (it is
0 exactly when the first integer in the text is 0, so the claimed lower bound
1 does not hold in general). -/
theorem requirement_quantity_amended (user_input : String) :
    decompose_quantity user_input ≤ 10 ∧
    (firstIntRun user_input.data = none →
      (∀ c ∈ user_input.data, c.isDigit = false) ∧ decompose_quantity user_input = 5) ∧
    (∀ ds, firstIntRun user_input.data = some ds →
      (∃ pre post, user_input.data = pre ++ (ds ++ post) ∧
        (∀ c ∈ pre, c.isDigit = false) ∧ ds ≠ [] ∧ (∀ c ∈ ds, c.isDigit = true) ∧
        ∀ c ∈ post.take 1, c.isDigit = false) ∧
      decompose_quantity user_input = min (digitsToNat ds) 10) := by
  refine ⟨?_, ?_, ?_⟩
  · unfold decompose_quantity
    omega
  · intro h
    refine ⟨(firstIntRun_eq_none_iff user_input.data).mp h, ?_⟩
    unfold decompose_quantity
    rw [h]
    rfl
  · intro ds h
    refine ⟨firstIntRun_eq_some_spec user_input.data ds h, ?_⟩
    unfold decompose_quantity
    rw [h]

/-- Claim C2, counterexample to the claimed range [1, 10]: a request whose
first integer is 0 produces quantity 0, because the source clamps only with
`min(quantity, 10)` and has no lower clamp. -/
theorem requirement_quantity_counterexample :
    decompose_quantity "Find 0 React developers" = 0 ∧
    ¬ 1 ≤ decompose_quantity "Find 0 React developers" := by
  decide

theorem requirement_quantity_amended_witness :
    decompose_quantity "Find 3 devs" ≤ 10 :=
  (requirement_quantity_amended "Find 3 devs").1

theorem chatbotRiskRaw_eq_sum (found_skills : List String) (url rating experience : String) :
    chatbotRiskRaw found_skills url rating experience =
      3 + (if 5 ≤ found_skills.length then -1 else 0)
        + (if pyIn "upwork.com" url || pyIn "linkedin.com" url then -(1 / 2) else 0)
        + (if rating ≠ "Not specified" then -(1 / 2) else 0)
        + (if pyIn "Not specified" experience then 1 else (0 : ℚ)) := by
  unfold chatbotRiskRaw
  split_ifs <;> ring

theorem calculateRiskRaw_eq_sum (profile : DevProfile) :
    calculateRiskRaw profile =
      3 + (if 6 ≤ profile.skills.length then -1 else 0)
        + (if "AI" ∈ profile.skills ∨ "Machine Learning" ∈ profile.skills then -1 else 0)
        + (if standaloneHighRating profile.rating then -(1 / 2) else 0)
        + (if ["3", "4", "5", "6", "7", "8", "9"].any
            (fun num => pyIn num profile.experience) then -(1 / 2) else 0)
        + (if profile.skills.length < 3 then 1 else 0)
        + (if profile.experience = "Unknown" ∨ profile.rating = "Unknown" then 1 / 2
           else (0 : ℚ)) := by
  unfold calculateRiskRaw
  split_ifs <;> ring

/-- Claim C5 (amended): the −0.5 rating adjustment is applied exactly when
the rating string starts with "4" or "5" only in the standalone variant; in
the chatbot variant it is applied exactly when a rating is present at all
(the rating differs from the "Not specified" sentinel), so a present rating
beginning with any other digit, such as "2/5", also receives the −0.5
reduction there. -/
theorem rating_adjustment_amended :
    (∀ profile : DevProfile, profile.rating ≠ "Unknown" →
      calculateRiskRaw profile - calculateRiskRaw { profile with rating := "Not specified" } =
        if standaloneHighRating profile.rating then -(1 / 2) else 0) ∧
    (∀ (found_skills : List String) (url rating experience : String),
      chatbotRiskRaw found_skills url rating experience -
          chatbotRiskRaw found_skills url "Not specified" experience =
        if rating = "Not specified" then 0 else -(1 / 2)) := by
  constructor
  · intro profile hr
    rw [calculateRiskRaw_eq_sum, calculateRiskRaw_eq_sum]
    have h1 : standaloneHighRating "Not specified" = false := by decide
    have h2 : ("Not specified" : String) = "Unknown" ↔ False := by
      constructor
      · intro h
        exact absurd h (by decide)
      · exact False.elim
    simp only [h1, h2, or_false, hr]
    split_ifs <;> simp_all <;> ring
  · intro found_skills url rating experience
    rw [chatbotRiskRaw_eq_sum, chatbotRiskRaw_eq_sum]
    by_cases hr : rating = "Not specified"
    · simp [hr]
    · simp only [hr, if_false, ne_eq, not_false_eq_true, if_true,
        not_true_eq_false, if_neg]
      split_ifs <;> simp_all
      ring_nf

/-- Claim C5, counterexample: in the chatbot variant a profile whose rating
is "2/5" (present, starting with "2") scores 2 while the same profile with no
rating scores 3 — the −0.5 rating reduction was applied although the rating
does not start with "4" or "5". -/
theorem rating_adjustment_counterexample :
    chatbotRiskScore [] "" "2/5" "5 years" = 2 ∧
    chatbotRiskScore [] "" "Not specified" "5 years" = 3 ∧
    standaloneHighRating "2/5" = false := by
  have hurl : (pyIn "upwork.com" "" || pyIn "linkedin.com" "") = false := by decide
  have hexp : pyIn "Not specified" "5 years" = false := by decide
  have hr1 : ("2/5" : String) ≠ "Not specified" := by decide
  refine ⟨?_, ?_, by decide⟩
  · unfold chatbotRiskScore
    rw [chatbotRiskRaw_eq_sum]
    simp [hurl, hexp, hr1]
    norm_num [pyTruncInt]
  · unfold chatbotRiskScore
    rw [chatbotRiskRaw_eq_sum]
    simp [hurl, hexp]
    norm_num [pyTruncInt]

theorem rating_adjustment_amended_witness :
    calculateRiskRaw
        { name := "J", skills := [], experience := "2 years", rating := "2/5"
          rate := "Not specified", risk_factors := [], strengths := [] } -
      calculateRiskRaw
        { name := "J", skills := [], experience := "2 years", rating := "Not specified"
          rate := "Not specified", risk_factors := [], strengths := [] } =
      if standaloneHighRating "2/5" then -(1 / 2) else 0 :=
  rating_adjustment_amended.1
    { name := "J", skills := [], experience := "2 years", rating := "2/5"
      rate := "Not specified", risk_factors := [], strengths := [] }
    (by decide)

/-- Claim C6 (amended): the "missing information" adjustment differs between
the variants.  The chatbot variant adds exactly +1.0 (not +0.5), exactly when
the experience string contains the "Not specified" sentinel; its rating field
is not consulted.  The standalone variant adds exactly +0.5, exactly when
experience or rating equals "Unknown" — which for rating never happens, since
the rating sentinel of that variant is "Not specified", which does not
trigger the adjustment. -/
theorem missing_info_amended :
    (∀ (found_skills : List String) (url rating experience : String),
      chatbotRiskRaw found_skills url rating experience -
          chatbotRiskRaw found_skills url rating "7 years" =
        if pyIn "Not specified" experience then 1 else 0) ∧
    (∀ profile : DevProfile, profile.rating ≠ "Unknown" →
      calculateRiskRaw { profile with experience := "Unknown" } -
          calculateRiskRaw { profile with experience := "2 years" } = 1 / 2) ∧
    (∀ profile : DevProfile,
      calculateRiskRaw { profile with experience := "2 years", rating := "Not specified" } =
        calculateRiskRaw { profile with experience := "2 years", rating := "0/5" }) := by
  refine ⟨?_, ?_, ?_⟩
  · intro found_skills url rating experience
    rw [chatbotRiskRaw_eq_sum, chatbotRiskRaw_eq_sum]
    have h1 : pyIn "Not specified" "7 years" = false := by decide
    simp only [h1]
    split_ifs <;> simp_all
  · intro profile hr
    rw [calculateRiskRaw_eq_sum, calculateRiskRaw_eq_sum]
    have h1 : (["3", "4", "5", "6", "7", "8", "9"].any
        fun num => pyIn num "Unknown") = false := by decide
    have h2 : (["3", "4", "5", "6", "7", "8", "9"].any
        fun num => pyIn num "2 years") = false := by decide
    have h3 : ("Unknown" : String) = "Unknown" ↔ True := by simp
    have h4 : ("2 years" : String) = "Unknown" ↔ False := by
      constructor
      · intro h
        exact absurd h (by decide)
      · exact False.elim
    simp only [h1, h2, h3, h4, true_or, false_or, if_true, hr, if_false]
    split_ifs <;> ring
  · intro profile
    rw [calculateRiskRaw_eq_sum, calculateRiskRaw_eq_sum]
    have h1 : standaloneHighRating "Not specified" = false := by decide
    have h2 : standaloneHighRating "0/5" = false := by decide
    have h3 : ("Not specified" : String) = "Unknown" ↔ False := by
      constructor
      · intro h
        exact absurd h (by decide)
      · exact False.elim
    have h4 : ("0/5" : String) = "Unknown" ↔ False := by
      constructor
      · intro h
        exact absurd h (by decide)
      · exact False.elim
    have h5 : ("2 years" : String) = "Unknown" ↔ False := by
      constructor
      · intro h
        exact absurd h (by decide)
      · exact False.elim
    simp only [h1, h2, h3, h4, h5, or_false, false_or]

/-- Claim C6, counterexample: in the chatbot variant a missing experience
raises the pre-clamp score by exactly 1, not 0.5 (the all-defaults profile
lands at 4, not 3.5); and in the standalone variant a rating holding its own
"Not specified" sentinel adds nothing. -/
theorem missing_info_counterexample :
    chatbotRiskRaw [] "" "Not specified" "Not specified" -
        chatbotRiskRaw [] "" "Not specified" "7 years" = 1 ∧
    chatbotRiskRaw [] "" "Not specified" "Not specified" = 4 ∧
    ¬ (1 : ℚ) = 1 / 2 ∧
    calculateRiskRaw
        { name := "X", skills := [], experience := "2 years", rating := "Not specified"
          rate := "Not specified", risk_factors := [], strengths := [] } =
      calculateRiskRaw
        { name := "X", skills := [], experience := "2 years", rating := "1/5"
          rate := "Not specified", risk_factors := [], strengths := [] } := by
  have hurl : (pyIn "upwork.com" "" || pyIn "linkedin.com" "") = false := by decide
  have hs1 : pyIn "Not specified" "Not specified" = true := by decide
  have hs2 : pyIn "Not specified" "7 years" = false := by decide
  have hhr1 : standaloneHighRating "Not specified" = false := by decide
  have hhr2 : standaloneHighRating "1/5" = false := by decide
  have hd : (["3", "4", "5", "6", "7", "8", "9"].any
      fun num => pyIn num "2 years") = false := by decide
  have he1 : ("2 years" : String) ≠ "Unknown" := by decide
  have he2 : ("Not specified" : String) ≠ "Unknown" := by decide
  have he3 : ("1/5" : String) ≠ "Unknown" := by decide
  refine ⟨?_, ?_, by norm_num, ?_⟩
  · rw [chatbotRiskRaw_eq_sum, chatbotRiskRaw_eq_sum]
    simp [hurl, hs1, hs2]
  · rw [chatbotRiskRaw_eq_sum]
    simp [hurl, hs1]
    norm_num
  · rw [calculateRiskRaw_eq_sum, calculateRiskRaw_eq_sum]
    simp [hhr1, hhr2, hd, he1, he2, he3]

theorem missing_info_amended_witness :
    calculateRiskRaw
        { name := "X", skills := [], experience := "Unknown", rating := "5/5"
          rate := "Not specified", risk_factors := [], strengths := [] } -
      calculateRiskRaw
        { name := "X", skills := [], experience := "2 years", rating := "5/5"
          rate := "Not specified", risk_factors := [], strengths := [] } = 1 / 2 := by
  have h := missing_info_amended.2.1
    { name := "X", skills := [], experience := "0 years", rating := "5/5"
      rate := "Not specified", risk_factors := [], strengths := [] } (by decide)
  simpa using h

/-- Claim C7: any profile with 7 matched skills including an AI/ML skill, a
verified-platform URL, rating "5/5" and experience "9 years" receives
riskScore 1 from both Risk Scorer variants — every applicable reduction
fires and the result is clamped at the lower bound. -/
theorem all_positive_profile_scores_one :
    ∀ (found_skills : List String) (url rating experience : String)
      (profile : DevProfile) (content : String),
      found_skills.length = 7 →
      ("AI" ∈ found_skills ∨ "Machine Learning" ∈ found_skills) →
      (pyIn "upwork.com" url = true ∨ pyIn "linkedin.com" url = true) →
      rating = "5/5" → experience = "9 years" →
      profile.skills = found_skills → profile.rating = rating →
      profile.experience = experience →
      chatbotRiskScore found_skills url rating experience = 1 ∧
        calculate_risk_score profile content = 1 := by
  intro found_skills url rating experience profile content hlen hai hurl hr he hps hpr hpe
  subst hr he
  constructor
  · unfold chatbotRiskScore
    rw [chatbotRiskRaw_eq_sum]
    have h1 : (pyIn "upwork.com" url || pyIn "linkedin.com" url) = true := by
      rcases hurl with h | h <;> simp [h]
    have h2 : ("5/5" : String) ≠ "Not specified" := by decide
    have h3 : pyIn "Not specified" "9 years" = false := by decide
    rw [hlen]
    simp [h1, h2, h3]
    norm_num [pyTruncInt]
  · unfold calculate_risk_score
    rw [calculateRiskRaw_eq_sum]
    have h4 : standaloneHighRating "5/5" = true := by decide
    have h5 : (["3", "4", "5", "6", "7", "8", "9"].any
        fun num => pyIn num "9 years") = true := by decide
    have h6 : ("9 years" : String) ≠ "Unknown" := by decide
    have h7 : ("5/5" : String) ≠ "Unknown" := by decide
    rw [hps, hpr, hpe, hlen]
    simp [hai, h4, h5, h6, h7]
    norm_num [pyRound]

theorem all_positive_profile_scores_one_witness :
    chatbotRiskScore
        ["React", "Node.js", "Python", "MongoDB", "Express", "AI", "Machine Learning"]
        "https://www.upwork.com/freelancers/x" "5/5" "9 years" = 1 ∧
      calculate_risk_score
        { name := "W"
          skills := ["React", "Node.js", "Python", "MongoDB", "Express", "AI",
            "Machine Learning"]
          experience := "9 years", rating := "5/5", rate := "$75/hour"
          risk_factors := [], strengths := [] } "" = 1 :=
  all_positive_profile_scores_one
    ["React", "Node.js", "Python", "MongoDB", "Express", "AI", "Machine Learning"]
    "https://www.upwork.com/freelancers/x" "5/5" "9 years"
    { name := "W"
      skills := ["React", "Node.js", "Python", "MongoDB", "Express", "AI",
        "Machine Learning"]
      experience := "9 years", rating := "5/5", rate := "$75/hour"
      risk_factors := [], strengths := [] } ""
    (by decide) (Or.inl (by decide)) (Or.inl (by decide)) rfl rfl rfl rfl rfl

/-- Claim C8: the Profile Extractor round trip — on a synthetic search result
with title "Jane Smith - Senior Dev" and content embedding the patterns
"5 years of experience", "4.5 stars" and "$75/hour", `_extract_profile_data`
yields name "Jane Smith", experience "5 years", seniority Senior,
rating "4.5/5" and hourly rate "$75/hour". -/
theorem profile_extractor_round_trip :
    (extract_profile_data "Jane Smith - Senior Dev"
        "5 years of experience. 4.5 stars. $75/hour" "").name = "Jane Smith" ∧
    (extract_profile_data "Jane Smith - Senior Dev"
        "5 years of experience. 4.5 stars. $75/hour" "").experience = "5 years" ∧
    (extract_profile_data "Jane Smith - Senior Dev"
        "5 years of experience. 4.5 stars. $75/hour" "").seniority =
      SeniorityLevel.SENIOR ∧
    (extract_profile_data "Jane Smith - Senior Dev"
        "5 years of experience. 4.5 stars. $75/hour" "").rating = "4.5/5" ∧
    (extract_profile_data "Jane Smith - Senior Dev"
        "5 years of experience. 4.5 stars. $75/hour" "").rate = "$75/hour" := by
  refine ⟨?_, ?_, ?_, ?_, ?_⟩ <;> decide

theorem pairwise_orderedInsert_stable {α : Type} (key : α → ℚ) (R : α → α → Prop)
    (x : α) (l : List α)
    (hs : l.Sorted fun a b => key a ≤ key b)
    (hp : l.Pairwise R)
    (h1 : ∀ y ∈ l, key x ≤ key y → R x y)
    (h2 : ∀ y ∈ l, key y < key x → R y x) :
    (List.orderedInsert (fun a b => key a ≤ key b) x l).Pairwise R := by
  induction l with
  | nil => simp
  | cons b t ih =>
    rw [List.orderedInsert]
    split_ifs with hxb
    · refine List.Pairwise.cons ?_ hp
      intro y hy
      rcases List.mem_cons.mp hy with rfl | hyt
      · exact h1 y (List.mem_cons_self _ _) hxb
      · have hby : key b ≤ key y := List.rel_of_sorted_cons hs y hyt
        exact h1 y (List.mem_cons_of_mem _ hyt) (le_trans hxb hby)
    · have hbx : key b < key x := lt_of_not_le hxb
      refine List.Pairwise.cons ?_
        (ih hs.of_cons hp.of_cons
          (fun y hy => h1 y (List.mem_cons_of_mem _ hy))
          (fun y hy => h2 y (List.mem_cons_of_mem _ hy)))
      intro y hy
      rcases (List.mem_orderedInsert _).mp hy with rfl | hyt
      · exact h2 b (List.mem_cons_self _ _) hbx
      · exact (List.pairwise_cons.mp hp).1 y hyt

theorem insertionSort_stable_tags {α : Type} (key : α → ℚ) (tag : α → ℕ)
    (l : List α) (hl : l.Pairwise fun a b => tag a < tag b) :
    (List.insertionSort (fun a b => key a ≤ key b) l).Pairwise
      fun a b => key a = key b → tag a < tag b := by
  induction l with
  | nil => simp
  | cons x t ih =>
    rw [List.insertionSort]
    have hs : (List.insertionSort (fun a b => key a ≤ key b) t).Sorted
        fun a b => key a ≤ key b := by
      haveI : IsTotal α fun a b => key a ≤ key b := ⟨fun a b => le_total _ _⟩
      haveI : IsTrans α fun a b => key a ≤ key b :=
        ⟨fun _ _ _ hab hbc => le_trans hab hbc⟩
      exact List.sorted_insertionSort _ t
    refine pairwise_orderedInsert_stable key _ x _ hs (ih hl.of_cons) ?_ ?_
    · intro y hy _ _
      have hyt : y ∈ t := (List.mem_insertionSort _).mp hy
      exact (List.pairwise_cons.mp hl).1 y hyt
    · intro y hy hlt heq
      exact absurd heq (ne_of_lt hlt)

theorem enum_tags_pairwise {α : Type} (l : List α) :
    l.enum.Pairwise fun a b => a.1 < b.1 := by
  rw [List.pairwise_iff_getElem]
  intro i j hi hj hij
  simp only [List.getElem_enum]
  exact hij

theorem sortTalentTagged_map_snd (req : Requirements) (l : List (ℕ × Talent)) :
    (sortTalentTagged req l).map Prod.snd = sortTalent req (l.map Prod.snd) := by
  unfold sortTalentTagged sortTalent
  exact List.map_insertionSort _ _ Prod.snd l fun a _ b _ => Iff.rfl

/-- Claim C4: the chatbot Ranker's sort by match score is stable.  Tagging
every input profile with its position, sorting the tagged list with the same
key projects (via the tags' second components) onto the Ranker's own sort,
and in the sorted tagged list any two entries with equal match scores keep
strictly increasing original positions — equal-score profiles appear in the
pre-truncation output in input order. -/
theorem chatbot_ranker_sort_stable (req : Requirements) (profiles : List Talent) :
    (sortTalentTagged req profiles.enum).map Prod.snd = sortTalent req profiles ∧
    ∀ i j : Fin (sortTalentTagged req profiles.enum).length, i < j →
      matchScore req ((sortTalentTagged req profiles.enum).get i).2 =
        matchScore req ((sortTalentTagged req profiles.enum).get j).2 →
      ((sortTalentTagged req profiles.enum).get i).1 <
        ((sortTalentTagged req profiles.enum).get j).1 := by
  constructor
  · rw [sortTalentTagged_map_snd, List.enum_map_snd]
  · have h := insertionSort_stable_tags (fun p : ℕ × Talent => matchScore req p.2)
      Prod.fst profiles.enum (enum_tags_pairwise profiles)
    rw [List.pairwise_iff_get] at h
    intro i j hij heq
    exact h i j hij heq

theorem chatbot_ranker_sort_stable_witness :
    (sortTalentTagged
        { skills := ["React"], seniority := SeniorityLevel.MID, quantity := 5
          original_request := "" } (([] : List Talent)).enum).map Prod.snd =
      sortTalent
        { skills := ["React"], seniority := SeniorityLevel.MID, quantity := 5
          original_request := "" } [] :=
  (chatbot_ranker_sort_stable
    { skills := ["React"], seniority := SeniorityLevel.MID, quantity := 5
      original_request := "" } []).1
